import Mathlib

/-!
Verification of the qusly-core `Client` orchestration layer
(`src/client.ts`), shallowly embedded in Lean 4.

Worker group labels and the requested task group are JavaScript strings in
the source (`'all'`, `'misc'`, `'transfer'`, or an absent group), so they are
modelled as `String` and `Option String` here. The worker pool size comes
from `IClientOptions.pool`, a JavaScript number, modelled as `Int`.

Effectful methods (`handleTransfer`, `abort`, `abortTransfer`, `connect`)
are modelled as pure functions producing the ordered trace of their
observable actions (`Ev` events: registry mutations, emitted notifications,
scheduler calls, worker `abort()` invocations, `await` suspension points),
together with their settlement value and resulting state where relevant.
-/

namespace Qusly

/-- Client options: `{ pool, transferPool }` from `IClientOptions`
(`pool` defaults to 1 in the constructor; `transferPool` is a flag). -/
structure IClientOptions where
  pool : Int
  transferPool : Bool
deriving DecidableEq, Repr

/-- Modelled from the spec: the `repeat` helper from `src/utils/array` is not
among the sources. The spec's group-count property ("the number of
Connections labeled `Transfer` equals `pool - 1`", `repeat('all', pool)`
producing `pool` copies) forces value replication; a non-positive count
yields the empty list. -/
def «repeat» (value : α) (count : Int) : List α :=
  List.replicate count.toNat value

/-- Source `Client.setWorkerGroups` (client.ts:148-159): computes the ordered group
labels handed to `tasks.setWorkers`. If `transferPool` is disabled or
`pool === 1`, every worker is labeled `'all'`; otherwise the first is
`'misc'` and the remaining `pool - 1` are `'transfer'`. -/
def setWorkerGroups (options : IClientOptions) : List String :=
  if !options.transferPool || options.pool == 1 then
    «repeat» "all" options.pool
  else
    "misc" :: «repeat» "transfer" (options.pool - 1)

/-- Source `Client.workerFilter` (client.ts:165-171): eligibility of a worker
(represented by its group label) for a requested group (`none` models an
absent/undefined group, which is falsy in JavaScript). -/
def workerFilter (workerGroup : String) (group : Option String) : Bool :=
  workerGroup == "all" ||
    (group.isNone && workerGroup == "misc") ||
    some workerGroup == group

/-- Observable actions of the `Client`'s effectful methods, in program
order. `setEntry`/`deleteEntry` are `this.transfers.set`/`.delete`;
`emit*` are the `this.emit(...)` notifications; `deleteTasksCall`,
`deleteAllTasksCall`, `pauseWorkers`, `resumeWorkers` are the calls into
the `TasksManager`; `abortWorker i` is a settled `workers[i].abort()`;
`runOp` is the invocation of the scheduled operation body;
`awaitDisconnect`/`awaitConnectAll` are the `await` suspension points of
`connect`. -/
inductive Ev where
  | setEntry (id : Nat) (w : Option Nat)
  | deleteEntry (id : Nat)
  | emitNew (id : Nat)
  | emitFinish (id : Nat)
  | emitAbortOne (id : Nat)
  | emitAbortAll (ids : List Nat)
  | deleteTasksCall (ids : List Nat)
  | deleteAllTasksCall
  | pauseWorkers (ws : List (Option Nat))
  | resumeWorkers (ws : List (Option Nat))
  | abortWorker (w : Nat)
  | runOp (id : Nat)
  | awaitDisconnect
  | awaitConnectAll
deriving DecidableEq, Repr

/-- The transfer registry `this.transfers : Map<number, number>` — task id to
worker index, where the stored value `none` models JavaScript `null`
("unassigned"). An association list in insertion order, mirroring `Map`
iteration order. -/
abbrev Registry := List (Nat × Option Nat)

/-- Lookup, as `Map.get`: `none` models JavaScript `undefined` (identity absent);
`some none` models a stored `null`. -/
def regGet (reg : Registry) (id : Nat) : Option (Option Nat) :=
  (reg.find? (fun p => p.1 == id)).map Prod.snd

/-- Insertion, as `Map.set`: replaces the value in place if the key exists (keeping
insertion order), otherwise appends. -/
def regSet (reg : Registry) (id : Nat) (v : Option Nat) : Registry :=
  if reg.any (fun p => p.1 == id) then
    reg.map (fun p => if p.1 == id then (id, v) else p)
  else
    reg ++ [(id, v)]

/-- Removal, as `Map.delete`. -/
def regDelete (reg : Registry) (id : Nat) : Registry :=
  reg.filter (fun p => p.1 != id)

/-- Effect of one event on the transfer registry. -/
def applyEv (reg : Registry) : Ev → Registry
  | Ev.setEntry id v => regSet reg id v
  | Ev.deleteEntry id => regDelete reg id
  | _ => reg

/-- Registry state after a trace of events. -/
def runTrace (reg : Registry) (evs : List Ev) : Registry :=
  evs.foldl applyEv reg

/-- The operation wrapper `handleTransfer` passes to `tasks.handle`
(client.ts:405-413): once the scheduler dispatches it with a worker
(`assigned = some w`), it records the worker index in the registry and runs
the caller's operation. If the task never receives a worker (`assigned =
none`, e.g. it was cancelled while pending), none of this runs. -/
def tasksHandleEvents (id : Nat) (assigned : Option Nat) : List Ev :=
  match assigned with
  | none => []
  | some w => [Ev.setEntry id (some w), Ev.runOp id]

/-- Trace of `Client.handleTransfer` (client.ts:394-420): create the registry
entry unassigned, emit `transfer-new`, run the scheduled operation (which
assigns the worker index), and — in the `finally` block, on success and
failure alike — delete the entry and emit `transfer-finish`. -/
def handleTransferTrace (id : Nat) (assigned : Option Nat) : List Ev :=
  [Ev.setEntry id none, Ev.emitNew id] ++
    tasksHandleEvents id assigned ++
    [Ev.deleteEntry id, Ev.emitFinish id]

/-- Source `Client.handleTransfer` as trace plus settlement: `res` is the
settlement of `tasks.handle` (the operation's own outcome, or the
cancellation rejection when the task never ran); the `catch (err) { throw
err }` re-raises it unchanged after the `finally` block runs. -/
def handleTransfer (id : Nat) (assigned : Option Nat)
    (res : Except String Unit) : List Ev × Except String Unit :=
  (handleTransferTrace id assigned, res)

/-- The per-id worker indexes `abortTransfer` collects into `workerIndexes`
(client.ts:217-224): `Map.get` gives `undefined` for an absent id and
`null` for an unassigned one; both are pushed as-is (flattened to `none`
here). -/
def abortWorkerIndexes (reg : Registry) (transferIds : List Nat) :
    List (Option Nat) :=
  transferIds.map (fun id => (regGet reg id).join)

/-- The worker instances `abortTransfer` collects (client.ts:220-222): only
ids whose registry value passes `workerIndex != null`, i.e. a real index. -/
def abortInstances (reg : Registry) (transferIds : List Nat) : List Nat :=
  transferIds.filterMap (fun id => (regGet reg id).join)

/-- Trace of `Client.abortTransfer` (client.ts:213-235): per id emit
`transfer-abort`; then `deleteTasks`, `pauseWorkers(...workerIndexes)`,
`await Promise.all` of the collected instances' `abort()`, and finally
`resumeWorkers(...workerIndexes)`. -/
def abortTransferTrace (reg : Registry) (transferIds : List Nat) : List Ev :=
  transferIds.map Ev.emitAbortOne ++
    [Ev.deleteTasksCall transferIds,
     Ev.pauseWorkers (abortWorkerIndexes reg transferIds)] ++
    (abortInstances reg transferIds).map Ev.abortWorker ++
    [Ev.resumeWorkers (abortWorkerIndexes reg transferIds)]

/-- Modelled from the spec: the `TasksManager` task queues (`src/tasks.ts`
is not among the sources). Pending tasks await a worker; running tasks hold
one. -/
structure TasksState where
  pending : List Nat
  running : List Nat
deriving DecidableEq, Repr

/-- Modelled from the spec: `TasksManager.deleteAllTasks` (`src/tasks.ts`
is not among the sources) — "cancels every Pending Task (never-started ones
fail immediately with a Cancelled outcome) and leaves Running Tasks
untouched (their eventual settlement is unaffected)". Returns the new state
and the cancelled ids. -/
def deleteAllTasks (s : TasksState) : TasksState × List Nat :=
  (⟨[], s.running⟩, s.pending)

/-- Source `Client.abort` (client.ts:202-208): emit `transfer-abort` spread over
`this.transfers.keys()`, call `tasks.deleteAllTasks()`, then `await
Promise.all` of every pool worker's `abort()`. Returns the trace and the
scheduler state after `deleteAllTasks`. -/
def clientAbort (reg : Registry) (s : TasksState) (workerCount : Nat) :
    List Ev × TasksState :=
  (Ev.emitAbortAll (reg.map Prod.fst) :: Ev.deleteAllTasksCall ::
      (List.range workerCount).map Ev.abortWorker,
   (deleteAllTasks s).1)

/-- Source `Client.createWorker` (client.ts:108-117): looks up
`this.strategies[protocol]` (modelled by the list of registered protocol
names) and throws "Strategy for protocol ... not found." when absent;
otherwise constructs the worker (modelled by its protocol name). -/
def createWorker (strategies : List String) (protocol : String) :
    Except String String :=
  if strategies.contains protocol then
    Except.ok protocol
  else
    Except.error ("Strategy for protocol " ++ protocol ++ " not found.")

/-- The worker-creation loop of `Client.setWorkers` (client.ts:125-131):
`for (let i = 0; i < pool; i++)` pushes one `createWorker()` result per
iteration; the first thrown error propagates and stops the loop. -/
def createWorkersLoop (strategies : List String) (protocol : String) :
    Nat → Except String (List String)
  | 0 => Except.ok []
  | n + 1 => do
      let w ← createWorker strategies protocol
      let ws ← createWorkersLoop strategies protocol n
      pure (w :: ws)

/-- Source `Client.setWorkers` (client.ts:119-134): clears the old workers, runs
the creation loop (`max pool 0` iterations, since a `pool < 1` bound makes
`i < pool` false immediately), then computes the group labels via
`setWorkerGroups`. -/
def setWorkers (strategies : List String) (protocol : String)
    (options : IClientOptions) : Except String (List String × List String) := do
  let workers ← createWorkersLoop strategies protocol options.pool.toNat
  pure (workers, setWorkerGroups options)

/-- The `Client` fields `connect` reads and writes: the saved `_config`
(modelled by its `protocol` string), the saved `_connectionOptions`
(opaque), the constructor `options`, the worker list, and the registered
strategies. -/
structure ClientState where
  config : Option String
  connectionOptions : Option Nat
  options : IClientOptions
  workers : List String
  strategies : List String
deriving DecidableEq, Repr

/-- The default strategy registry (client.ts:75-79): `ftp`, `ftps`, `sftp`. -/
def defaultStrategies : List String := ["ftp", "ftps", "sftp"]

/-- Source `Client.connect` (client.ts:180-193) as trace, post-state and
settlement. With neither a saved nor a passed config it throws
`Config must be provided!` before doing anything else. Otherwise it
`await`s `disconnect()`, saves the passed config/options if present, runs
`setWorkers()` (whose missing-strategy error propagates after the workers
were cleared), and finally `await`s every worker's `connect()`. -/
def connect (s : ClientState) (config : Option String)
    (options : Option Nat) : List Ev × ClientState × Except String Unit :=
  if s.config.isNone && config.isNone then
    ([], s, Except.error "Config must be provided!")
  else
    let s1 : ClientState :=
      { s with
        config := if config.isSome then config else s.config
        connectionOptions :=
          if options.isSome then options else s.connectionOptions }
    match setWorkers s1.strategies (s1.config.getD "") s1.options with
    | Except.error e =>
        ([Ev.awaitDisconnect], { s1 with workers := [] }, Except.error e)
    | Except.ok (ws, _groups) =>
        ([Ev.awaitDisconnect, Ev.awaitConnectAll],
         { s1 with workers := ws }, Except.ok ())

/-- C1: for every pool size `p ≥ 1` and transfer-pool flag, the group
labels assigned to the `p` workers are all `'all'` when the flag is
disabled or `p = 1`, and otherwise `'misc'` for the first worker followed
by `p - 1` copies of `'transfer'`. -/
theorem setWorkerGroups_labels (pool : Int) (transferPool : Bool)
    (_hpool : 1 ≤ pool) :
    (transferPool = false ∨ pool = 1 →
      setWorkerGroups ⟨pool, transferPool⟩ = List.replicate pool.toNat "all") ∧
    (transferPool = true → 1 < pool →
      setWorkerGroups ⟨pool, transferPool⟩ =
        "misc" :: List.replicate (pool - 1).toNat "transfer") := by
  constructor
  · rintro (h | h) <;> simp [setWorkerGroups, «repeat», h]
  · intro ht hlt
    have h1 : (pool == 1) = false := by
      simp only [beq_eq_false_iff_ne, ne_eq]
      omega
    simp [setWorkerGroups, «repeat», ht, h1]

/-- Witness for C1 at pool 3 with the transfer pool enabled. -/
theorem setWorkerGroups_labels_witness :
    setWorkerGroups ⟨3, true⟩ = "misc" :: List.replicate 2 "transfer" :=
  (setWorkerGroups_labels 3 true (by decide)).2 rfl (by decide)

/-- C2: `workerFilter` accepts a worker exactly when its label is `'all'`,
or the requested group is absent and the label is `'misc'`, or the label
equals the requested group; in particular a requested `'transfer'` or
`'misc'` group matches only that exact label or `'all'`. -/
theorem workerFilter_eligibility (wg : String) (g : Option String) :
    (workerFilter wg g = true ↔
      wg = "all" ∨ (g = none ∧ wg = "misc") ∨ some wg = g) ∧
    (workerFilter wg (some "transfer") = true ↔
      wg = "all" ∨ wg = "transfer") ∧
    (workerFilter wg (some "misc") = true ↔ wg = "all" ∨ wg = "misc") := by
  refine ⟨?_, ?_, ?_⟩ <;>
    simp [workerFilter, Option.isNone_iff_eq_none, or_assoc]

/-- C3: for every transfer, the registry entry is created unassigned
(`null`) at announcement, updated to the real worker index when the
scheduled operation receives its worker, present after every prefix of the
trace from the announcement up to the settlement step, and the settlement
(`deleteEntry` immediately followed by `emitFinish`, with no suspension
between) removes it last. -/
theorem handleTransfer_registry_window (id : Nat) (assigned : Option Nat) :
    (regGet (runTrace [] ((handleTransferTrace id assigned).take 2)) id =
       some none) ∧
    (∀ w, assigned = some w →
      regGet (runTrace [] ((handleTransferTrace id assigned).take 3)) id =
        some (some w)) ∧
    (∀ k, 2 ≤ k → k + 2 ≤ (handleTransferTrace id assigned).length →
      (regGet (runTrace [] ((handleTransferTrace id assigned).take k))
          id).isSome = true) ∧
    ((handleTransferTrace id assigned)[(handleTransferTrace id
        assigned).length - 2]? = some (Ev.deleteEntry id)) ∧
    ((handleTransferTrace id assigned)[(handleTransferTrace id
        assigned).length - 1]? = some (Ev.emitFinish id)) ∧
    regGet (runTrace [] (handleTransferTrace id assigned)) id = none := by
  cases assigned with
  | none =>
    refine ⟨?_, ?_, ?_, ?_, ?_, ?_⟩
    · simp [handleTransferTrace, tasksHandleEvents, runTrace, applyEv,
        regSet, regGet]
    · intro w hw
      simp at hw
    · intro k h1 h2
      simp [handleTransferTrace, tasksHandleEvents] at h2
      have hk : k = 2 := by omega
      subst hk
      simp [handleTransferTrace, tasksHandleEvents, runTrace, applyEv,
        regSet, regGet]
    · simp [handleTransferTrace, tasksHandleEvents]
    · simp [handleTransferTrace, tasksHandleEvents]
    · simp [handleTransferTrace, tasksHandleEvents, runTrace, applyEv,
        regSet, regGet, regDelete]
  | some w =>
    refine ⟨?_, ?_, ?_, ?_, ?_, ?_⟩
    · simp [handleTransferTrace, tasksHandleEvents, runTrace, applyEv,
        regSet, regGet]
    · intro w' hw'
      cases hw'
      simp [handleTransferTrace, tasksHandleEvents, runTrace, applyEv,
        regSet, regGet]
    · intro k h1 h2
      simp [handleTransferTrace, tasksHandleEvents] at h2
      interval_cases k <;>
        simp [handleTransferTrace, tasksHandleEvents, runTrace, applyEv,
          regSet, regGet]
    · simp [handleTransferTrace, tasksHandleEvents]
    · simp [handleTransferTrace, tasksHandleEvents]
    · simp [handleTransferTrace, tasksHandleEvents, runTrace, applyEv,
        regSet, regGet, regDelete]

/-- Witness for C3 at transfer id 5 assigned to worker 2, checking the
window at the announcement prefix. -/
theorem handleTransfer_registry_window_witness :
    (regGet (runTrace [] ((handleTransferTrace 5 (some 2)).take 3)) 5 =
       some (some 2)) ∧
    (regGet (runTrace [] ((handleTransferTrace 5 (some 2)).take 4))
        5).isSome = true :=
  ⟨(handleTransfer_registry_window 5 (some 2)).2.1 2 rfl,
   (handleTransfer_registry_window 5 (some 2)).2.2.1 4 (by decide)
     (by decide)⟩

/-- C6: whatever the scheduled operation settles with, `handleTransfer`
re-raises exactly that settlement (no swallowing), runs the operation at
most once (no retry), and on success and failure alike still deletes the
registry entry and emits `transfer-finish`. -/
theorem handleTransfer_release (id w : Nat) (res : Except String Unit) :
    (handleTransfer id (some w) res).2 = res ∧
    Ev.deleteEntry id ∈ (handleTransfer id (some w) res).1 ∧
    Ev.emitFinish id ∈ (handleTransfer id (some w) res).1 ∧
    (handleTransfer id (some w) res).1.count (Ev.runOp id) = 1 := by
  refine ⟨rfl, ?_, ?_, ?_⟩ <;>
    simp [handleTransfer, handleTransferTrace, tasksHandleEvents,
      List.count_cons, List.count_append]

/-- C4: `abortTransfer`'s trace splits as events before the pause (none of
which is a worker `abort()`), then `pauseWorkers` over the looked-up
indexes, then exactly the collected instances' `abort()` calls, then —
only after all of them settled — `resumeWorkers`; and every worker index
assigned to one of the given identities is in the paused list. -/
theorem abortTransfer_pause_bracket (reg : Registry) (ids : List Nat) :
    ∃ pre aborts,
      abortTransferTrace reg ids =
        pre ++ Ev.pauseWorkers (abortWorkerIndexes reg ids) ::
          (aborts ++ [Ev.resumeWorkers (abortWorkerIndexes reg ids)]) ∧
      (∀ e ∈ pre, ∀ w, e ≠ Ev.abortWorker w) ∧
      (∀ e ∈ aborts, ∃ w ∈ abortInstances reg ids, e = Ev.abortWorker w) ∧
      (∀ id ∈ ids, ∀ w, regGet reg id = some (some w) →
        some w ∈ abortWorkerIndexes reg ids) := by
  refine ⟨ids.map Ev.emitAbortOne ++ [Ev.deleteTasksCall ids],
    (abortInstances reg ids).map Ev.abortWorker, ?_, ?_, ?_, ?_⟩
  · simp [abortTransferTrace]
  · intro e he w
    rcases List.mem_append.1 he with h | h
    · obtain ⟨i, _, rfl⟩ := List.mem_map.1 h
      simp
    · simp only [List.mem_singleton] at h
      subst h
      simp
  · intro e he
    obtain ⟨w, hw, rfl⟩ := List.mem_map.1 he
    exact ⟨w, hw, rfl⟩
  · intro id hid w hw
    exact List.mem_map.2 ⟨id, hid, by simp [hw]⟩

/-- Witness for C4: with identity 1 assigned to worker 0, worker 0 is in
the paused index list. -/
theorem abortTransfer_pause_bracket_witness :
    some 0 ∈ abortWorkerIndexes [(1, some 0)] [1] := by
  obtain ⟨pre, aborts, _, _, _, h3⟩ :=
    abortTransfer_pause_bracket [(1, some 0)] [1]
  exact h3 1 (by decide) 0 (by decide)

/-- C9: an identity whose registry lookup yields no worker index
(unassigned `null` or absent) still contributes its empty index to the
`pauseWorkers`/`resumeWorkers` argument list, while every worker `abort()`
in the trace stems from an identity with a real assigned index. -/
theorem abortTransfer_unassigned (reg : Registry) (ids : List Nat)
    (id : Nat) (hid : id ∈ ids) (hun : (regGet reg id).join = none) :
    Ev.pauseWorkers (abortWorkerIndexes reg ids) ∈
      abortTransferTrace reg ids ∧
    Ev.resumeWorkers (abortWorkerIndexes reg ids) ∈
      abortTransferTrace reg ids ∧
    none ∈ abortWorkerIndexes reg ids ∧
    (∀ w, Ev.abortWorker w ∈ abortTransferTrace reg ids →
      ∃ j ∈ ids, regGet reg j = some (some w)) := by
  refine ⟨?_, ?_, ?_, ?_⟩
  · simp [abortTransferTrace]
  · simp [abortTransferTrace]
  · exact List.mem_map.2 ⟨id, hid, hun⟩
  · intro w hw
    simp [abortTransferTrace, abortInstances] at hw
    obtain ⟨j, hj, hjoin⟩ := hw
    exact ⟨j, hj, Option.join_eq_some.1 hjoin⟩

/-- Witness for C9: identity 7 announced but unassigned (`null`) puts
`none` into the paused index list. -/
theorem abortTransfer_unassigned_witness :
    none ∈ abortWorkerIndexes [(7, none)] [7] :=
  (abortTransfer_unassigned [(7, none)] [7] 7 (by decide) (by decide)).2.2.1

/-- C5: the global `abort` first emits `transfer-abort` carrying exactly
the registry's identities (in insertion order), then calls
`deleteAllTasks` — after which no task is pending while the running tasks
are untouched — and invokes every pool worker's `abort()`. -/
theorem clientAbort_global (reg : Registry) (s : TasksState)
    (workerCount : Nat) :
    (clientAbort reg s workerCount).1[0]? =
      some (Ev.emitAbortAll (reg.map Prod.fst)) ∧
    (clientAbort reg s workerCount).1[1]? = some Ev.deleteAllTasksCall ∧
    (clientAbort reg s workerCount).2.pending = [] ∧
    (clientAbort reg s workerCount).2.running = s.running ∧
    (∀ w, w < workerCount →
      Ev.abortWorker w ∈ (clientAbort reg s workerCount).1) := by
  refine ⟨by simp [clientAbort], by simp [clientAbort], rfl, rfl, ?_⟩
  intro w hw
  simpa [clientAbort] using hw

/-- Witness for C5 with one registered transfer, one pending and one
running task, and two workers. -/
theorem clientAbort_global_witness :
    Ev.abortWorker 1 ∈ (clientAbort [(3, some 0)] ⟨[4], [3]⟩ 2).1 :=
  (clientAbort_global [(3, some 0)] ⟨[4], [3]⟩ 2).2.2.2.2 1 (by decide)

/-- Counterexample to C7: with pool size `0` (< 1) and a perfectly valid
strategy, `setWorkers` raises no error at all — it succeeds with an empty
worker pool. -/
theorem setWorkers_pool_zero_no_error :
    setWorkers defaultStrategies "ftp" ⟨0, false⟩ = Except.ok ([], []) := by
  rfl

/-- C7 (amended): for every pool size < 1, `setWorkers` does not raise an
error; the creation loop body never runs, so it silently yields an empty
worker list together with the computed group labels. -/
theorem setWorkers_pool_lt_one (strategies : List String)
    (protocol : String) (options : IClientOptions)
    (h : options.pool < 1) :
    setWorkers strategies protocol options =
      Except.ok ([], setWorkerGroups options) := by
  have h0 : options.pool.toNat = 0 := by omega
  simp [setWorkers, h0, createWorkersLoop]

/-- Witness for the amended C7 at pool size `-2`. -/
theorem setWorkers_pool_lt_one_witness :
    setWorkers defaultStrategies "sftp" ⟨-2, false⟩ =
      Except.ok ([], setWorkerGroups ⟨-2, false⟩) :=
  setWorkers_pool_lt_one defaultStrategies "sftp" ⟨-2, false⟩ (by decide)

/-- Counterexample to C8: connecting a fresh client with pool 1 and the
unregistered protocol `http` does fail with the error naming the missing
strategy, but only after the `await this.disconnect()` suspension point —
the trace before the failure surfaces is `[awaitDisconnect]`, not empty,
so the error is not surfaced before any asynchronous suspension point. -/
theorem connect_missing_strategy_after_await :
    (connect ⟨none, none, ⟨1, false⟩, [], defaultStrategies⟩
        (some "http") none).1 = [Ev.awaitDisconnect] ∧
    (connect ⟨none, none, ⟨1, false⟩, [], defaultStrategies⟩
        (some "http") none).2.2 =
      Except.error "Strategy for protocol http not found." := by
  constructor <;> rfl

/-- C8 (amended): for every config whose protocol has no registered
strategy (and a pool of at least one worker, so the creation loop runs),
`connect` fails with the error naming the missing strategy, but the
failure surfaces only after the one `await this.disconnect()` suspension
point, as a rejection of the returned promise. -/
theorem connect_missing_strategy (s : ClientState) (protocol : String)
    (options : Option Nat) (hs : s.strategies.contains protocol = false)
    (hp : 1 ≤ s.options.pool) :
    (connect s (some protocol) options).1 = [Ev.awaitDisconnect] ∧
    (connect s (some protocol) options).2.2 =
      Except.error ("Strategy for protocol " ++ protocol ++ " not found.") := by
  have hs' : protocol ∉ s.strategies := by simpa using hs
  have hcw : createWorker s.strategies protocol =
      Except.error ("Strategy for protocol " ++ protocol ++ " not found.") := by
    simp [createWorker, hs']
  obtain ⟨m, hm⟩ : ∃ m, s.options.pool.toNat = m + 1 :=
    ⟨s.options.pool.toNat - 1, by omega⟩
  have hsw : setWorkers s.strategies protocol s.options =
      Except.error
        ("Strategy for protocol " ++ protocol ++ " not found.") := by
    simp only [setWorkers, hm, createWorkersLoop, hcw]
    rfl
  constructor <;> simp [connect, hsw]

/-- Witness for the amended C8: a connected client asked to reconnect with
the unregistered protocol `http`. -/
theorem connect_missing_strategy_witness :
    (connect ⟨some "ftp", none, ⟨2, true⟩, ["ftp", "ftp"],
        defaultStrategies⟩ (some "http") (some 5)).2.2 =
      Except.error "Strategy for protocol http not found." :=
  (connect_missing_strategy
    ⟨some "ftp", none, ⟨2, true⟩, ["ftp", "ftp"], defaultStrategies⟩
    "http" (some 5) (by decide) (by decide)).2

/-- C10: `connect` with no config argument and no previously saved config
throws `Config must be provided!` with an empty trace — before any
suspension point, without disconnecting or replacing any worker — and the
client state (saved config, connection options, workers) is returned
unchanged. -/
theorem connect_no_config (s : ClientState) (options : Option Nat)
    (h : s.config = none) :
    connect s none options =
      ([], s, Except.error "Config must be provided!") := by
  simp [connect, h]

/-- Witness for C10: a fresh client with saved connection options and a
worker list, called with `connect(undefined, options)`. -/
theorem connect_no_config_witness :
    connect ⟨none, some 9, ⟨1, false⟩, ["ftp"], defaultStrategies⟩ none
        (some 3) =
      ([], ⟨none, some 9, ⟨1, false⟩, ["ftp"], defaultStrategies⟩,
       Except.error "Config must be provided!") :=
  connect_no_config ⟨none, some 9, ⟨1, false⟩, ["ftp"], defaultStrategies⟩
    (some 3) rfl

end Qusly
